import Mathlib

/-!
Verification of the conversational relay bot in `src/bot.py`.

The per-user state is the single dictionary slot
`context.user_data['original_text']`, modelled as `Option String`.
Handlers are modelled as pure functions from the pending state and the
inbound event data to the new pending state together with a trace of
observable actions: render instructions sent to the transport and the
single outbound generation call with its prompt.  The external Gemini
service's behaviour at the one call site is a parameter (`ServiceResult`).
-/

set_option maxRecDepth 100000

namespace Bot

/-- One transformation direction: a stable key, a user-facing button label
and a generation instruction template (entries of `ACTIVE_MODES`). -/
structure Mode where
  key : String
  button_text : String
  gemini_prompt : String
deriving DecidableEq, Repr

/-- First entry of `ACTIVE_MODES` in `src/bot.py`. -/
def slangToStandard : Mode :=
  ⟨"slang_to_standard_russian",
   "Сленг 🧢 → Понятно 🧐",
   "Твоя задача — объяснить этот текст, написанный на современном русскоязычном молодежном сленге, простым, ясным и общепонятным литературным русским языком. Главное — сделать смысл доступным для человека, не знакомого со сленгом. Сохрани исходную мысль и эмоциональный окрас. Текст должен звучать естественно и грамотно."⟩

/-- Second entry of `ACTIVE_MODES` in `src/bot.py`. -/
def standardToSlang : Mode :=
  ⟨"standard_russian_to_slang",
   "Понятно 🧐 → Сленг 🧢",
   "Твоя задача — перевести этот текст, написанный на стандартном русском языке, на современный молодежный сленг (для аудитории 16-25 лет). Сделай текст максимально неформальным, живым, добавь характерные словечки и обороты. Важно точно передать смысл в сленговой манере."⟩

/-- The static mode registry `ACTIVE_MODES` (insertion order of the dict). -/
def ACTIVE_MODES : List Mode := [slangToStandard, standardToSlang]

/-- Dictionary lookup `ACTIVE_MODES.get(mode_key)` / `mode_key in ACTIVE_MODES`. -/
def modeLookup (k : String) : Option Mode :=
  ACTIVE_MODES.find? (fun m => m.key == k)

/-- Fixed first line of the f-string prompt (before the template insertion). -/
def promptHead : String :=
  "Ты — ИИ-помощник, специализирующийся на переводе между современным русским молодежным сленгом и общепонятным литературным русским языком.\n"

/-- Fixed middle of the f-string prompt: the invariant constraints, up to and
including the newline before the opening quote around the user text. -/
def promptMid : String :=
  "\n\nВажно:\n- Сохраняй основной смысл исходного текста.\n- Адаптируй лексику, грамматику и тональность под целевой стиль.\n- Выдавай **только** переведенный текст, без каких-либо своих вступлений, извинений, объяснений твоего процесса или комментариев.\n\nИсходный текст для перевода:\n"

/-- Fixed end of the f-string prompt, after the closing quote around the user text. -/
def promptTail : String :=
  "\n\nРезультат (только переведенный текст):"

/-- The prompt built at lines 44–55 of `src/bot.py`: role statement, the
mode's instruction template verbatim, the constraint block, the raw user
text delimited by double quotes, and the closing cue. -/
def buildPrompt (tmpl text : String) : String :=
  promptHead ++ tmpl ++ promptMid ++ "\"" ++ text ++ "\"" ++ promptTail

/-- Python's `str.strip()`: drop whitespace characters from both ends. -/
def pyStrip (s : String) : String :=
  ⟨((s.data.dropWhile Char.isWhitespace).reverse.dropWhile Char.isWhitespace).reverse⟩

/-- The error kinds the spec distinguishes for failures of the underlying
service call (`generate_content` raising, modelled abstractly). -/
inductive ErrorKind
  | serviceUnavailable
  | emptyResponse
  | unauthorized
  | unknown
deriving DecidableEq, Repr

/-- Behaviour of the external Gemini service at the single call site:
either `generate_content` raises (with some error kind), or it returns a
response whose `.text` field is absent / `None` (also covering a falsy
response object), or it returns a response carrying a text string
(possibly empty — the empty string is falsy in Python). -/
inductive ServiceResult
  | exn (kind : ErrorKind)
  | resp (text : Option String)
deriving DecidableEq, Repr

/-- Observable actions emitted while handling one inbound event. -/
inductive Render
  | greeting
  | chooseDirection (buttons : List (String × String))
  | answerAck
  | unknownMode
  | noTextFound
  | working (label : String)
  | result (text : String)
  | transError (label : String)
deriving DecidableEq, Repr

/-- An element of a handler's trace: a render instruction to the transport,
or the outbound generation call carrying its prompt. -/
inductive Action
  | render (r : Render)
  | gemCall (prompt : String)
deriving DecidableEq, Repr

/-- The prompts of the gateway calls occurring in a trace, in order. -/
def callsOf (tr : List Action) : List String :=
  tr.filterMap (fun a => match a with | .gemCall p => some p | _ => none)

/-- Whether an action is the outbound generation call. -/
def isCall : Action → Bool
  | .gemCall _ => true
  | .render _ => false

/-- `build_translation_mode_keyboard`: one button per registered mode, its
label and callback value `"mode_" + key`. -/
def build_translation_mode_keyboard : List (String × String) :=
  ACTIVE_MODES.map (fun m => (m.button_text, "mode_" ++ m.key))

/-- `translate_text_with_gemini` (lines 33–69): returns the trimmed response
text on a truthy response with truthy `.text`, `None` on an uninitialised
client, an unknown mode, a raised exception, or an absent/empty response
text.  The second component is the trace: the one `generate_content` call
with its prompt, issued exactly when client and mode checks pass. -/
def translate_text_with_gemini (client : Bool) (text_to_translate mode_key : String)
    (svc : ServiceResult) : Option String × List Action :=
  if client = false then (none, [])
  else
    match modeLookup mode_key with
    | none => (none, [])
    | some mode_info =>
      let prompt := buildPrompt mode_info.gemini_prompt text_to_translate
      (match svc with
       | .exn _ => none
       | .resp none => none
       | .resp (some t) => if t = "" then none else some (pyStrip t),
       [Action.gemCall prompt])

/-- `start_command` (lines 80–87): greet and clear the user's state. -/
def start_command (_pending : Option String) : Option String × List Action :=
  (none, [Action.render Render.greeting])

/-- `handle_text_message` (lines 90–95): ignore absent or empty text;
otherwise overwrite the pending slot and show the mode keyboard. -/
def handle_text_message (pending : Option String) (msg : Option String) :
    Option String × List Action :=
  match msg with
  | none => (pending, [])
  | some t =>
    if t = "" then (pending, [])
    else (some t, [Action.render (Render.chooseDirection build_translation_mode_keyboard)])

/-- `handle_mode_selection` (lines 98–129): acknowledge the callback, strip
the `"mode_"` marker from the callback data, reject unknown modes without
touching the state, pop the pending text (removed even when falsy), reject
missing text, emit the working message, call the gateway, and render the
result or an error naming the mode's label. -/
def handle_mode_selection (client : Bool) (pending : Option String) (data : String)
    (svc : ServiceResult) : Option String × List Action :=
  let ack := [Action.render Render.answerAck]
  let mode_key := data.drop 5
  match modeLookup mode_key with
  | none => (pending, ack ++ [Action.render Render.unknownMode])
  | some m =>
    let label := m.button_text
    match pending with
    | none => (none, ack ++ [Action.render Render.noTextFound])
    | some original_text =>
      if original_text = "" then (none, ack ++ [Action.render Render.noTextFound])
      else
        let tr := translate_text_with_gemini client original_text mode_key svc
        let preCall := ack ++ [Action.render (Render.working label)]
        match tr.1 with
        | some translated =>
          if translated = "" then
            (none, preCall ++ tr.2 ++ [Action.render (Render.transError label)])
          else
            (none, preCall ++ tr.2 ++ [Action.render (Render.result translated)])
        | none => (none, preCall ++ tr.2 ++ [Action.render (Render.transError label)])

/-- The final render of a selection with a known mode and pending text, as a
function of the gateway's returned value (`if translated_text:`). -/
def finalRender (label : String) (v : Option String) : Render :=
  match v with
  | some s => if s = "" then Render.transError label else Render.result s
  | none => Render.transError label

/-- C4: a Selection event whose mode key is not registered in `ACTIVE_MODES`
emits only the callback acknowledgement and the "unknown mode" error render,
makes no gateway call, and leaves the pending entry untouched. -/
theorem unknown_mode_untouched_store (client : Bool) (pending : Option String)
    (data : String) (svc : ServiceResult)
    (h : modeLookup (data.drop 5) = none) :
    handle_mode_selection client pending data svc
      = (pending, [Action.render Render.answerAck, Action.render Render.unknownMode]) ∧
    callsOf (handle_mode_selection client pending data svc).2 = [] := by
  constructor
  · simp [handle_mode_selection, h]
  · simp [handle_mode_selection, h, callsOf]

/-- Witness for `unknown_mode_untouched_store` at callback data `"mode_zzz"`
with a pending text present. -/
theorem unknown_mode_untouched_store_witness :
    modeLookup ("mode_zzz".drop 5) = none ∧
    (handle_mode_selection true (some "привет") "mode_zzz" (ServiceResult.resp none)
      = (some "привет", [Action.render Render.answerAck, Action.render Render.unknownMode]) ∧
     callsOf (handle_mode_selection true (some "привет") "mode_zzz"
        (ServiceResult.resp none)).2 = []) :=
  ⟨by decide,
   unknown_mode_untouched_store true (some "привет") "mode_zzz" (ServiceResult.resp none)
     (by decide)⟩

/-- C3: a Selection event with a registered mode key but no pending text
for the user emits the "no text found" error render, makes no gateway
call, and ends in the Idle state (no pending entry). -/
theorem selection_without_pending_text (client : Bool) (data : String)
    (svc : ServiceResult) (m : Mode)
    (h : modeLookup (data.drop 5) = some m) :
    handle_mode_selection client none data svc
      = (none, [Action.render Render.answerAck, Action.render Render.noTextFound]) ∧
    callsOf (handle_mode_selection client none data svc).2 = [] := by
  constructor
  · simp [handle_mode_selection, h]
  · simp [handle_mode_selection, h, callsOf]

/-- Witness for `selection_without_pending_text` at the first registered mode. -/
theorem selection_without_pending_text_witness :
    modeLookup ("mode_slang_to_standard_russian".drop 5) = some slangToStandard ∧
    (handle_mode_selection true none "mode_slang_to_standard_russian"
        (ServiceResult.resp (some "hi"))
      = (none, [Action.render Render.answerAck, Action.render Render.noTextFound]) ∧
     callsOf (handle_mode_selection true none "mode_slang_to_standard_russian"
        (ServiceResult.resp (some "hi"))).2 = []) :=
  ⟨by decide,
   selection_without_pending_text true "mode_slang_to_standard_russian"
     (ServiceResult.resp (some "hi")) slangToStandard (by decide)⟩

/-- C2 counterexample: a Selection with an unregistered mode key while a
pending entry exists leaves that entry in the store, so it is not the case
that every Selection event leaves no pending entry for the user. -/
theorem selection_cleanup_counterexample :
    (handle_mode_selection true (some "привет") "mode_zzz" (ServiceResult.resp none)).1
      = some "привет" := by decide

/-- C2 (amended): after a Selection event whose mode key is registered in
`ACTIVE_MODES` — successful generation, generation failure, or missing
pending text — the store holds no pending entry for that user. -/
theorem selection_known_mode_clears_store (client : Bool) (pending : Option String)
    (data : String) (svc : ServiceResult) (m : Mode)
    (h : modeLookup (data.drop 5) = some m) :
    (handle_mode_selection client pending data svc).1 = none := by
  cases pending with
  | none => simp [handle_mode_selection, h]
  | some t =>
    by_cases ht : t = ""
    · simp [handle_mode_selection, h, ht]
    · simp only [handle_mode_selection, h, ht, if_false]
      split
      · split <;> rfl
      · rfl

/-- Witness for `selection_known_mode_clears_store` on a successful outcome. -/
theorem selection_known_mode_clears_store_witness :
    modeLookup ("mode_standard_russian_to_slang".drop 5) = some standardToSlang ∧
    (handle_mode_selection true (some "привет") "mode_standard_russian_to_slang"
      (ServiceResult.resp (some "йоу"))).1 = none :=
  ⟨by decide,
   selection_known_mode_clears_store true (some "привет") "mode_standard_russian_to_slang"
     (ServiceResult.resp (some "йоу")) standardToSlang (by decide)⟩

/-- Shared helper: with a registered mode and non-empty pending text, the
selection handler's full behaviour is the acknowledgement, the working
render, exactly one gateway call with the built prompt, and a final render
determined by the gateway's returned value. -/
theorem selection_trace_known_mode (t data : String) (svc : ServiceResult) (m : Mode)
    (ht : t ≠ "") (hm : modeLookup (data.drop 5) = some m) :
    handle_mode_selection true (some t) data svc
      = (none,
         [Action.render Render.answerAck,
          Action.render (Render.working m.button_text),
          Action.gemCall (buildPrompt m.gemini_prompt t),
          Action.render (finalRender m.button_text
            (translate_text_with_gemini true t (data.drop 5) svc).1)]) := by
  simp only [handle_mode_selection, hm, ht, if_false]
  simp only [translate_text_with_gemini, hm]
  cases svc with
  | exn k => simp [finalRender]
  | resp o =>
    cases o with
    | none => simp [finalRender]
    | some u =>
      by_cases hu : u = ""
      · simp [hu, finalRender]
      · by_cases hs : pyStrip u = "" <;> simp [hu, hs, finalRender]

/-- C1: a Text event with non-empty text followed by a Selection event with
a registered mode key makes exactly one gateway call, whose prompt is built
from that mode's template and the stored text. -/
theorem text_then_selection_single_call (s0 : Option String) (t data : String)
    (svc : ServiceResult) (m : Mode) (ht : t ≠ "")
    (hm : modeLookup (data.drop 5) = some m) :
    callsOf (handle_mode_selection true (handle_text_message s0 (some t)).1 data svc).2
      = [buildPrompt m.gemini_prompt t] := by
  have hp : (handle_text_message s0 (some t)).1 = some t := by
    simp [handle_text_message, ht]
  rw [hp, selection_trace_known_mode t data svc m ht hm]
  simp [callsOf]

/-- Witness for `text_then_selection_single_call`. -/
theorem text_then_selection_single_call_witness :
    ("привет" ≠ "") ∧
    modeLookup ("mode_slang_to_standard_russian".drop 5) = some slangToStandard ∧
    callsOf (handle_mode_selection true
        (handle_text_message none (some "привет")).1 "mode_slang_to_standard_russian"
        (ServiceResult.resp (some "йоу"))).2
      = [buildPrompt slangToStandard.gemini_prompt "привет"] :=
  ⟨by decide, by decide,
   text_then_selection_single_call none "привет" "mode_slang_to_standard_russian"
     (ServiceResult.resp (some "йоу")) slangToStandard (by decide) (by decide)⟩

/-- C5: a second Text event before any Selection overwrites the first text
without error (the store's single per-user slot holds at most one entry by
construction), and the subsequent Selection with a registered key issues its
one gateway call from the second text only. -/
theorem two_texts_last_write_wins (s0 : Option String) (t1 t2 data : String)
    (svc : ServiceResult) (m : Mode) (h1 : t1 ≠ "") (h2 : t2 ≠ "")
    (hm : modeLookup (data.drop 5) = some m) :
    (handle_text_message (handle_text_message s0 (some t1)).1 (some t2)).1 = some t2 ∧
    callsOf (handle_mode_selection true
        (handle_text_message (handle_text_message s0 (some t1)).1 (some t2)).1 data svc).2
      = [buildPrompt m.gemini_prompt t2] := by
  have hp : (handle_text_message (handle_text_message s0 (some t1)).1 (some t2)).1
      = some t2 := by
    simp [handle_text_message, h1, h2]
  refine ⟨hp, ?_⟩
  rw [hp, selection_trace_known_mode t2 data svc m h2 hm]
  simp [callsOf]

/-- Witness for `two_texts_last_write_wins`. -/
theorem two_texts_last_write_wins_witness :
    ("первый" ≠ "") ∧ ("второй" ≠ "") ∧
    modeLookup ("mode_standard_russian_to_slang".drop 5) = some standardToSlang ∧
    ((handle_text_message (handle_text_message none (some "первый")).1 (some "второй")).1
        = some "второй" ∧
     callsOf (handle_mode_selection true
        (handle_text_message (handle_text_message none (some "первый")).1 (some "второй")).1
        "mode_standard_russian_to_slang" (ServiceResult.resp (some "йоу"))).2
      = [buildPrompt standardToSlang.gemini_prompt "второй"]) :=
  ⟨by decide, by decide, by decide,
   two_texts_last_write_wins none "первый" "второй" "mode_standard_russian_to_slang"
     (ServiceResult.resp (some "йоу")) standardToSlang (by decide) (by decide) (by decide)⟩

/-- C6: the gateway is a total function of the service's behaviour (no
exception escapes it): a response carrying non-empty text yields the
stripped text, while an empty text, an absent text, and a raised service
error of any kind each yield the `None` failure outcome. -/
theorem gateway_outcome_total (text mk t : String) (m : Mode) (k : ErrorKind)
    (hm : modeLookup mk = some m) (ht : t ≠ "") :
    (translate_text_with_gemini true text mk (ServiceResult.resp (some t))).1
      = some (pyStrip t) ∧
    (translate_text_with_gemini true text mk (ServiceResult.resp (some ""))).1 = none ∧
    (translate_text_with_gemini true text mk (ServiceResult.resp none)).1 = none ∧
    (translate_text_with_gemini true text mk (ServiceResult.exn k)).1 = none := by
  simp [translate_text_with_gemini, hm, ht]

/-- Witness for `gateway_outcome_total`. -/
theorem gateway_outcome_total_witness :
    modeLookup "slang_to_standard_russian" = some slangToStandard ∧ (" йоу " ≠ "") ∧
    ((translate_text_with_gemini true "текст" "slang_to_standard_russian"
        (ServiceResult.resp (some " йоу "))).1 = some (pyStrip " йоу ") ∧
     (translate_text_with_gemini true "текст" "slang_to_standard_russian"
        (ServiceResult.resp (some ""))).1 = none ∧
     (translate_text_with_gemini true "текст" "slang_to_standard_russian"
        (ServiceResult.resp none)).1 = none ∧
     (translate_text_with_gemini true "текст" "slang_to_standard_russian"
        (ServiceResult.exn ErrorKind.serviceUnavailable)).1 = none) :=
  ⟨by decide, by decide,
   gateway_outcome_total "текст" "slang_to_standard_russian" " йоу " slangToStandard
     ErrorKind.serviceUnavailable (by decide) (by decide)⟩

/-- C7 counterexample: two different raised error kinds produce the very
same Failure outcome — the except-clause erases the kind and returns the
single value `None` — so distinct kinds are not converted to distinct
outcomes. -/
theorem failure_kinds_not_distinct :
    (translate_text_with_gemini true "привет" "slang_to_standard_russian"
        (ServiceResult.exn ErrorKind.serviceUnavailable)).1
      = (translate_text_with_gemini true "привет" "slang_to_standard_russian"
        (ServiceResult.exn ErrorKind.unauthorized)).1 ∧
    (translate_text_with_gemini true "привет" "slang_to_standard_russian"
        (ServiceResult.exn ErrorKind.serviceUnavailable)).1 = none ∧
    ErrorKind.serviceUnavailable ≠ ErrorKind.unauthorized := by decide

/-- C7 (amended): a raised service error of every kind is converted to the
same single non-raising `None` failure outcome (the kind is erased), and
any failing gateway outcome makes the handler render the error message
naming the selected mode's button label. -/
theorem failure_renders_mode_label (t data : String) (m : Mode) (k : ErrorKind)
    (svc : ServiceResult) (ht : t ≠ "") (hm : modeLookup (data.drop 5) = some m)
    (hfail : (translate_text_with_gemini true t (data.drop 5) svc).1 = none) :
    (translate_text_with_gemini true t (data.drop 5) (ServiceResult.exn k)).1 = none ∧
    handle_mode_selection true (some t) data svc
      = (none, [Action.render Render.answerAck,
                Action.render (Render.working m.button_text),
                Action.gemCall (buildPrompt m.gemini_prompt t),
                Action.render (Render.transError m.button_text)]) := by
  constructor
  · simp [translate_text_with_gemini, hm]
  · rw [selection_trace_known_mode t data svc m ht hm, hfail]
    rfl

/-- Witness for `failure_renders_mode_label` on a raised Unknown error. -/
theorem failure_renders_mode_label_witness :
    ("привет" ≠ "") ∧
    modeLookup ("mode_slang_to_standard_russian".drop 5) = some slangToStandard ∧
    (translate_text_with_gemini true "привет" ("mode_slang_to_standard_russian".drop 5)
        (ServiceResult.exn ErrorKind.unknown)).1 = none ∧
    ((translate_text_with_gemini true "привет" ("mode_slang_to_standard_russian".drop 5)
        (ServiceResult.exn ErrorKind.unknown)).1 = none ∧
     handle_mode_selection true (some "привет") "mode_slang_to_standard_russian"
        (ServiceResult.exn ErrorKind.unknown)
      = (none, [Action.render Render.answerAck,
                Action.render (Render.working slangToStandard.button_text),
                Action.gemCall (buildPrompt slangToStandard.gemini_prompt "привет"),
                Action.render (Render.transError slangToStandard.button_text)])) :=
  ⟨by decide, by decide, by decide,
   failure_renders_mode_label "привет" "mode_slang_to_standard_russian" slangToStandard
     ErrorKind.unknown (ServiceResult.exn ErrorKind.unknown) (by decide) (by decide)
     (by decide)⟩

/-- C8: with a registered mode and pending text, the working render occurs
strictly before the gateway call in the handler's trace: the trace splits at
the working render, with no call before it and the call after it. -/
theorem working_precedes_gateway_call (t data : String) (svc : ServiceResult) (m : Mode)
    (ht : t ≠ "") (hm : modeLookup (data.drop 5) = some m) :
    ∃ pre post,
      (handle_mode_selection true (some t) data svc).2
        = pre ++ Action.render (Render.working m.button_text) :: post ∧
      (∀ a ∈ pre, isCall a = false) ∧
      Action.gemCall (buildPrompt m.gemini_prompt t) ∈ post := by
  refine ⟨[Action.render Render.answerAck],
    [Action.gemCall (buildPrompt m.gemini_prompt t),
     Action.render (finalRender m.button_text
       (translate_text_with_gemini true t (data.drop 5) svc).1)], ?_, ?_, ?_⟩
  · rw [selection_trace_known_mode t data svc m ht hm]
    rfl
  · simp [isCall]
  · simp

/-- Witness for `working_precedes_gateway_call`. -/
theorem working_precedes_gateway_call_witness :
    ("привет" ≠ "") ∧
    modeLookup ("mode_slang_to_standard_russian".drop 5) = some slangToStandard ∧
    (∃ pre post,
      (handle_mode_selection true (some "привет") "mode_slang_to_standard_russian"
          (ServiceResult.resp (some "йоу"))).2
        = pre ++ Action.render (Render.working slangToStandard.button_text) :: post ∧
      (∀ a ∈ pre, isCall a = false) ∧
      Action.gemCall (buildPrompt slangToStandard.gemini_prompt "привет") ∈ post) :=
  ⟨by decide, by decide,
   working_precedes_gateway_call "привет" "mode_slang_to_standard_russian"
     (ServiceResult.resp (some "йоу")) slangToStandard (by decide) (by decide)⟩

/-- C9: prompt building is a total function on all string inputs, its output
contains the mode's instruction template verbatim as a contiguous segment,
and it embeds the raw user text delimited by double quotes. -/
theorem buildPrompt_embeds_template_and_text (tmpl text : String) :
    (∃ a b, buildPrompt tmpl text = a ++ (tmpl ++ b)) ∧
    (∃ c d, buildPrompt tmpl text = c ++ (("\"" ++ text ++ "\"") ++ d)) := by
  constructor
  · exact ⟨promptHead, promptMid ++ "\"" ++ text ++ "\"" ++ promptTail,
      by simp [buildPrompt, String.append_assoc]⟩
  · exact ⟨promptHead ++ tmpl ++ promptMid, promptTail,
      by simp [buildPrompt, String.append_assoc]⟩

/-- C10: a service response whose text is non-empty but all whitespace makes
the gateway return the empty string (a success value under the trimming
rule), yet the handler's truthiness test then takes the failure branch and
renders the error naming the mode's label instead of a result. -/
theorem whitespace_only_response_error_branch (t data ws : String) (m : Mode)
    (ht : t ≠ "") (hm : modeLookup (data.drop 5) = some m)
    (hws : ws ≠ "") (hstrip : pyStrip ws = "") :
    (translate_text_with_gemini true t (data.drop 5) (ServiceResult.resp (some ws))).1
      = some "" ∧
    handle_mode_selection true (some t) data (ServiceResult.resp (some ws))
      = (none, [Action.render Render.answerAck,
                Action.render (Render.working m.button_text),
                Action.gemCall (buildPrompt m.gemini_prompt t),
                Action.render (Render.transError m.button_text)]) := by
  have hv : (translate_text_with_gemini true t (data.drop 5)
      (ServiceResult.resp (some ws))).1 = some "" := by
    simp [translate_text_with_gemini, hm, hws, hstrip]
  refine ⟨hv, ?_⟩
  rw [selection_trace_known_mode t data (ServiceResult.resp (some ws)) m ht hm, hv]
  rfl

/-- Witness for `whitespace_only_response_error_branch` with the response
text a single space. -/
theorem whitespace_only_response_error_branch_witness :
    ("привет" ≠ "") ∧
    modeLookup ("mode_slang_to_standard_russian".drop 5) = some slangToStandard ∧
    (" " ≠ "") ∧ pyStrip " " = "" ∧
    ((translate_text_with_gemini true "привет" ("mode_slang_to_standard_russian".drop 5)
        (ServiceResult.resp (some " "))).1 = some "" ∧
     handle_mode_selection true (some "привет") "mode_slang_to_standard_russian"
        (ServiceResult.resp (some " "))
      = (none, [Action.render Render.answerAck,
                Action.render (Render.working slangToStandard.button_text),
                Action.gemCall (buildPrompt slangToStandard.gemini_prompt "привет"),
                Action.render (Render.transError slangToStandard.button_text)])) :=
  ⟨by decide, by decide, by decide, by decide,
   whitespace_only_response_error_branch "привет" "mode_slang_to_standard_russian" " "
     slangToStandard (by decide) (by decide) (by decide) (by decide)⟩

end Bot
